import Mathlib

/-
Verification development for the bcode collaborative-editing repository.

Part 1 - channel strings (src/types/Room.ts): `channelString` renders a
channel as `code:group` and `parseChannelString` matches the regex
`([a-zA-Z0-9-]+):([0-9]+)` anchored on both sides.  Since neither
character class contains `:`, a string matches the regex iff splitting it
at the colons yields exactly two parts, the first a non-empty run of
code characters and the second a non-empty run of digits; `splitOnColon`
implements that split and `parseChannelString` the whole match.  The
decimal rendering of the group number is `natRepr` and `digitsToNat`
models `parseInt(_, 10)` on an all-digit string.

Part 2 - server actions (src/app/actions.ts): `saveDocumentSrv` embeds the
`saveDocument` server action over a database state `DB` (the `rooms` and
`updates` tables).  External effects are parameters: `decodeOk` stands for
`decodeUpdateV2` succeeding, `user` for `getUser()`, `now` for the
`updateTs` wall clock in milliseconds and `lock_time` rows are epoch
milliseconds.  `Buffer.from(update)` coerces each entry mod 256, which
`storeUpdate` mirrors.  Errors thrown before the single terminal insert
leave the store unmodified, which the `Except` result makes structural.
`upsertLockTime` embeds the `lock_time` field of the row built by
`upsertRoom`, with `jsOrString` modelling JavaScript `||` on a nullable
string.

Part 3 - the synchronization provider (src/provider/SupabaseProvider.ts):
`PState` is the provider's mutable state plus observation logs (`sent`
broadcasts, `saveCalls` payloads handed to the configured saveDocument
callback, `statusEmits`/`savingEmits` events).  The YJS and awareness
libraries are abstracted by `YModel`/`AwModel`; fallible library calls
return `Option`.  Each private method of the class is one definition
(`commitUpdates`, `throttledSend`, `sendUpdate`, `requestSave`,
`saveDocumentCore`/`saveDocumentFull`, `onUnload`, `destroyInternal`,
`loadDocumentP`, `onSubscribed`, `receiveUpdate`, `presenceSync`), and
`step` dispatches the event-loop events; `runTrace` folds a trace.  The
lodash debounce is modelled by `debounceDeadline`: each `requestSave` at
time t re-arms the deadline to `t + saveInterval`, and a `timerFire t`
event invokes the debounced save only when `t` equals the armed deadline
(a fire at any other time is the timer lodash has superseded, a no-op).
Async save completion is folded into the invoking step, with the
success/failure of the callback and of channel removal passed as event
parameters.  `PayloadSchema` of zod is `payloadParse` over a JSON value
tree.  `mkProvider`/`validateConfig`/`resolveConfig` embed the
constructor's config validation (lodash `defaults` then the two interval
checks).
-/

def isCodeChar (c : Char) : Bool := c.isAlpha || c.isDigit || c = '-'

def digitVal (c : Char) : Nat := c.toNat - '0'.toNat

def digitsToNat (cs : List Char) : Nat := cs.foldl (fun a c => 10 * a + digitVal c) 0

def natRepr (n : Nat) : List Char :=
  if n < 10 then [Nat.digitChar n]
  else natRepr (n / 10) ++ [Nat.digitChar (n % 10)]
  decreasing_by exact Nat.div_lt_self (by omega) (by omega)

def splitOnColon : List Char → List (List Char)
  | [] => [[]]
  | c :: rest =>
    if c = ':' then [] :: splitOnColon rest
    else
      match splitOnColon rest with
      | [] => [[c]]
      | h :: t => (c :: h) :: t

def parseChannelString (s : String) : Option (String × Nat) :=
  match splitOnColon s.data with
  | [a, b] =>
    if a ≠ [] ∧ a.all isCodeChar ∧ b ≠ [] ∧ b.all Char.isDigit then
      some (String.mk a, digitsToNat b)
    else none
  | _ => none

def channelString (code : String) (group : Nat) : String :=
  code ++ ":" ++ String.mk (natRepr group)

def lockSaveGracePeriodMs : Int := 5000

structure RoomGroupM where
  no : Nat
  name : String
deriving DecidableEq

structure RoomRow where
  code : String
  groups : List RoomGroupM
  lock_time : Option Int
  owner : String
deriving DecidableEq

structure DB where
  rooms : List RoomRow
  updates : List (String × List Nat)
deriving DecidableEq

def findRoom (db : DB) (code : String) : Option RoomRow :=
  db.rooms.find? (fun r => r.code = code)

def storeUpdate (decodeOk : List Nat → Bool) (db : DB) (channel : String)
    (update : List Nat) : Except String DB :=
  if ¬ decodeOk (update.map (fun n => n % 256)) then .error "Malformed update"
  else .ok { db with updates := db.updates ++ [(channel, update.map (fun n => n % 256))] }

def saveDocumentSrv (decodeOk : List Nat → Bool) (user : Option String) (now : Int)
    (db : DB) (channel : String) (update : List Nat) : Except String DB :=
  match parseChannelString channel with
  | none => .error "Invalid channel string"
  | some (code, group) =>
    match findRoom db code with
    | none => .error "No such room"
    | some room =>
      if ¬ room.groups.any (fun g => g.no = group) then .error "No such group in room"
      else
        match room.lock_time with
        | some lockTs =>
          if user ≠ some room.owner ∧ now - lockTs > lockSaveGracePeriodMs then
            .error "Room is locked"
          else storeUpdate decodeOk db channel update
        | none => storeUpdate decodeOk db channel update

inductive ConnectionStatus where
  | Connected
  | Disconnected
  | Connecting
  | DisconnectedError
deriving DecidableEq

inductive ReadWriteMode where
  | ReadWrite
  | ReadOnly
deriving DecidableEq

structure YModel (D : Type) where
  applyLocal : D → List Nat → D
  applyUpdate : D → List Nat → Option D
  applyUpdateV2 : D → List Nat → Option D
  encodeStateAsUpdate : D → List Nat
  encodeStateAsUpdateV2 : D → List Nat
  encodeStateVector : D → List Nat
  diffUpdateV2 : List Nat → List Nat → List Nat
  mergeUpdates : List (List Nat) → List Nat

structure AwModel (A : Type) where
  clientID : Nat
  applyAwarenessUpdate : A → List Nat → Option A
  encodeAwarenessUpdate : A → List Nat → List Nat
  removeLocal : A → A
  removeOthers : A → A

structure PConfig where
  channel : String
  save : Bool
  resync : Bool
  resyncInterval : Int
  saveInterval : Int
  throttleInterval : Int
  log : Bool
  rw : ReadWriteMode
  hasSaveCallback : Bool
  hasLoadCallback : Bool
deriving DecidableEq

structure PConfigInput where
  channel : String
  hasSaveCallback : Bool
  hasLoadCallback : Bool
  save : Option Bool
  resync : Option Bool
  resyncInterval : Option Int
  saveInterval : Option Int
  throttleInterval : Option Int
  log : Option Bool
  rw : Option ReadWriteMode
deriving DecidableEq

def resolveConfig (c : PConfigInput) : PConfig := {
    channel := c.channel
    hasSaveCallback := c.hasSaveCallback
    hasLoadCallback := c.hasLoadCallback
    save := c.save.getD true
    resync := c.resync.getD true
    resyncInterval := c.resyncInterval.getD 20000
    saveInterval := c.saveInterval.getD 2500
    throttleInterval := c.throttleInterval.getD 0
    log := c.log.getD true
    rw := c.rw.getD .ReadWrite }

def validateConfig (c : PConfigInput) : Except String PConfig :=
  if (resolveConfig c).resyncInterval ≤ 0 then .error "resyncInterval must be positive"
  else if (resolveConfig c).saveInterval ≤ 0 then .error "saveInterval must be positive"
  else .ok (resolveConfig c)

structure Payload where
  document : Option (List Nat)
  awareness : Option (List Nat)
deriving DecidableEq

structure PState (D A : Type) where
  config : PConfig
  status : ConnectionStatus
  doc : D
  awareness : A
  hasLocalAwareness : Bool
  previous : Option (List Nat)
  alone : Bool
  hasChannel : Bool
  resyncActive : Bool
  handlersBound : Bool
  savesOutstanding : Int
  savesUnclaimed : Int
  documentUpdates : List (List Nat)
  awarenessUpdates : List Nat
  debounceDeadline : Option Int
  throttlePending : Bool
  sent : List Payload
  saveCalls : List (List Nat)
  statusEmits : List ConnectionStatus
  savingEmits : List Bool

def saving {D A : Type} (s : PState D A) : Bool := s.savesOutstanding > 0

def uniqNat : List Nat → List Nat
  | [] => []
  | x :: xs => x :: uniqNat (xs.filter (fun y => y ≠ x))
  termination_by l => l.length
  decreasing_by
    simp only [List.length_cons]
    exact Nat.lt_succ_of_le (List.length_filter_le _ _)

variable {D A : Type}

def commitUpdates (M : YModel D) (W : AwModel A) (s : PState D A) : PState D A :=
  if s.alone then s
  else if s.status ≠ ConnectionStatus.Connected then s
  else if ¬ s.hasChannel then s
  else if s.documentUpdates = [] ∧ s.awarenessUpdates = [] then s
  else
    let pd : Option (List Nat) :=
      if s.documentUpdates ≠ [] then some (M.mergeUpdates s.documentUpdates) else none
    let pa : Option (List Nat) :=
      if s.awarenessUpdates ≠ [] then
        some (W.encodeAwarenessUpdate s.awareness (uniqNat s.awarenessUpdates))
      else none
    { s with documentUpdates := [], awarenessUpdates := [],
             sent := s.sent ++ [{ document := pd, awareness := pa }] }

def throttledSend (M : YModel D) (W : AwModel A) (s : PState D A) : PState D A :=
  if s.config.throttleInterval = 0 then commitUpdates M W s
  else { s with throttlePending := true }

structure SendArg where
  document : Option (List Nat) := none
  awareness : Option (List Nat) := none
  resync : Bool := false

def sendUpdate (M : YModel D) (W : AwModel A) (arg : SendArg) (s : PState D A) : PState D A :=
  if ¬ arg.resync ∧ s.config.rw = ReadWriteMode.ReadOnly then s
  else if arg.resync ∧ ¬ s.config.resync then s
  else
    let arg : SendArg :=
      if arg.resync then
        { document := some (M.encodeStateAsUpdate s.doc)
          awareness := if s.config.rw ≠ ReadWriteMode.ReadOnly then some [W.clientID] else none
          resync := true }
      else arg
    if arg.document = none ∧ (arg.awareness = none ∨ arg.awareness = some []) then s
    else
      let s :=
        match arg.document with
        | some d => { s with documentUpdates := s.documentUpdates ++ [d] }
        | none => s
      let s :=
        match arg.awareness with
        | some a => { s with awarenessUpdates := s.awarenessUpdates ++ a }
        | none => s
      throttledSend M W s

def requestSave (t : Int) (s : PState D A) : PState D A :=
  if s.status ≠ ConnectionStatus.Connected then s
  else if ¬ (s.config.save ∧ s.config.hasSaveCallback) then s
  else
    let wasSaving := saving s
    let s := { s with savesOutstanding := s.savesOutstanding + 1,
                      savesUnclaimed := s.savesUnclaimed + 1 }
    let s :=
      if wasSaving ≠ saving s then { s with savingEmits := s.savingEmits ++ [saving s] }
      else s
    { s with debounceDeadline := some (t + s.config.saveInterval) }

def saveDocumentCore (M : YModel D) (requireConnection saveOk : Bool) (s : PState D A) :
    PState D A × Bool :=
  if requireConnection ∧ s.status ≠ ConnectionStatus.Connected then (s, false)
  else if s.savesUnclaimed = 0 then (s, false)
  else
    let unclaimedSaves := s.savesUnclaimed
    let s := { s with savesUnclaimed := 0 }
    let onSaved : PState D A → PState D A := fun s1 =>
      let wasSaving := saving s1
      let s2 := { s1 with savesOutstanding := s1.savesOutstanding - unclaimedSaves }
      if s2.status = ConnectionStatus.Connected ∧ wasSaving ≠ saving s2 then
        { s2 with savingEmits := s2.savingEmits ++ [saving s2] }
      else s2
    if ¬ (s.config.save ∧ s.config.hasSaveCallback) then (onSaved s, false)
    else
      let current := M.encodeStateAsUpdateV2 s.doc
      let diff :=
        match s.previous with
        | some p => M.diffUpdateV2 current p
        | none => M.encodeStateAsUpdateV2 s.doc
      if diff = [0, 0] then (onSaved s, false)
      else
        let s := { s with saveCalls := s.saveCalls ++ [diff] }
        if saveOk then
          (onSaved { s with previous := some (M.encodeStateVector s.doc) }, false)
        else (s, true)

def onUnload (M : YModel D) (W : AwModel A) (s : PState D A) : PState D A :=
  if s.hasLocalAwareness then
    sendUpdate M W { awareness := some [W.clientID] }
      { s with awareness := W.removeLocal s.awareness, hasLocalAwareness := false }
  else s

def destroyFinish (W : AwModel A) (status : ConnectionStatus) (removeOk : Bool)
    (s : PState D A) : PState D A :=
  if s.hasChannel then
    if removeOk then
      { s with
          hasChannel := false
          awareness := W.removeOthers s.awareness
          status := status
          statusEmits := s.statusEmits ++ [status] }
    else
      { s with
          hasChannel := false
          awareness := W.removeOthers s.awareness
          status := ConnectionStatus.DisconnectedError
          statusEmits := s.statusEmits ++ [ConnectionStatus.DisconnectedError] }
  else
    { s with
        awareness := W.removeOthers s.awareness
        status := status
        statusEmits := s.statusEmits ++ [status] }

def destroyInternal (M : YModel D) (W : AwModel A) (status : ConnectionStatus)
    (saveOk removeOk : Bool) (s : PState D A) : PState D A :=
  if s.status = ConnectionStatus.Disconnected ∨ s.status = ConnectionStatus.DisconnectedError
  then s
  else
    destroyFinish W status removeOk
      { (saveDocumentCore M false saveOk
          { commitUpdates M W (onUnload M W s) with
              status := ConnectionStatus.Disconnected, resyncActive := false }).1
        with handlersBound := false }

def saveDocumentFull (M : YModel D) (W : AwModel A) (requireConnection saveOk removeOk : Bool)
    (s : PState D A) : PState D A :=
  if (saveDocumentCore M requireConnection saveOk s).2 then
    destroyInternal M W ConnectionStatus.DisconnectedError saveOk removeOk
      (saveDocumentCore M requireConnection saveOk s).1
  else (saveDocumentCore M requireConnection saveOk s).1

inductive JsonValue where
  | null
  | bool (b : Bool)
  | num (n : Int)
  | str (s : String)
  | arr (elems : List JsonValue)
  | obj (fields : List (String × JsonValue))

def lookupField (fields : List (String × JsonValue)) (key : String) : Option JsonValue :=
  (fields.find? (fun f => f.1 = key)).map (fun f => f.2)

def isByteVal : JsonValue → Bool
  | .num n => if 0 ≤ n ∧ n ≤ 255 then true else false
  | _ => false

def toByteNat : JsonValue → Nat
  | .num n => n.toNat
  | _ => 0

def parseBytesField (v : Option JsonValue) : Option (Option (List Nat)) :=
  match v with
  | none => some none
  | some (.arr elems) =>
    if 1 ≤ elems.length ∧ elems.all isByteVal then some (some (elems.map toByteNat))
    else none
  | some _ => none

def payloadParse (v : JsonValue) : Option (Option (List Nat) × Option (List Nat)) :=
  match v with
  | .obj fields =>
    match parseBytesField (lookupField fields "document"),
          parseBytesField (lookupField fields "awareness") with
    | some d, some a => some (d, a)
    | _, _ => none
  | _ => none

def receiveUpdate (M : YModel D) (W : AwModel A) (v : JsonValue) (s : PState D A) :
    PState D A :=
  match payloadParse v with
  | none => s
  | some (docBytes, awBytes) =>
    match docBytes with
    | some d =>
      match M.applyUpdate s.doc d with
      | none => s
      | some doc2 =>
        match awBytes with
        | some a =>
          match W.applyAwarenessUpdate s.awareness a with
          | none => { s with doc := doc2 }
          | some aw2 => { s with doc := doc2, awareness := aw2 }
        | none => { s with doc := doc2 }
    | none =>
      match awBytes with
      | some a =>
        match W.applyAwarenessUpdate s.awareness a with
        | none => s
        | some aw2 => { s with awareness := aw2 }
      | none => s

def loadDocumentP (M : YModel D) (W : AwModel A)
    (loadData : Except Unit (Option (List Nat))) (saveOk removeOk : Bool)
    (s : PState D A) : PState D A × Bool :=
  if ¬ s.config.hasLoadCallback then (s, true)
  else
    match loadData with
    | .error _ =>
      (destroyInternal M W ConnectionStatus.DisconnectedError saveOk removeOk s, false)
    | .ok none => (s, true)
    | .ok (some data) =>
      match M.applyUpdateV2 s.doc data with
      | none =>
        (destroyInternal M W ConnectionStatus.DisconnectedError saveOk removeOk s, false)
      | some doc2 =>
        ({ s with doc := doc2, previous := some (M.encodeStateVector doc2) }, true)

def onSubscribed (M : YModel D) (W : AwModel A)
    (loadData : Except Unit (Option (List Nat))) (trackOk saveOk removeOk : Bool)
    (s : PState D A) : PState D A :=
  if ¬ (loadDocumentP M W loadData saveOk removeOk s).2 then
    (loadDocumentP M W loadData saveOk removeOk s).1
  else if ¬ (loadDocumentP M W loadData saveOk removeOk s).1.hasChannel ∨ ¬ trackOk then
    destroyInternal M W ConnectionStatus.DisconnectedError saveOk removeOk
      (loadDocumentP M W loadData saveOk removeOk s).1
  else
    { (loadDocumentP M W loadData saveOk removeOk s).1 with
        status := ConnectionStatus.Connected,
        statusEmits := (loadDocumentP M W loadData saveOk removeOk s).1.statusEmits ++
          [ConnectionStatus.Connected] }

def onDocumentUpdate (M : YModel D) (W : AwModel A) (u : List Nat) (t : Int)
    (s : PState D A) : PState D A :=
  requestSave t (sendUpdate M W { document := some u } s)

def onAwarenessChange (M : YModel D) (W : AwModel A) (clients : List Nat)
    (s : PState D A) : PState D A :=
  sendUpdate M W { awareness := some clients } s

def presenceSync (M : YModel D) (W : AwModel A) (n : Nat) (s : PState D A) : PState D A :=
  if ¬ (n ≤ 1) then
    commitUpdates M W (sendUpdate M W { resync := true } { s with alone := n ≤ 1 })
  else { s with alone := n ≤ 1 }

inductive PEvent where
  | localEdit (u : List Nat) (t : Int)
  | awarenessChange (clients : List Nat)
  | presenceSync (n : Nat)
  | timerFire (t : Int) (saveOk removeOk : Bool)
  | throttleFlush
  | resyncTick
  | receiveBroadcast (v : JsonValue)
  | subscribed (loadData : Except Unit (Option (List Nat))) (trackOk saveOk removeOk : Bool)
  | channelError (saveOk removeOk : Bool)
  | destroy (saveOk removeOk : Bool)

def step (M : YModel D) (W : AwModel A) (e : PEvent) (s : PState D A) : PState D A :=
  match e with
  | .localEdit u t =>
    if s.handlersBound then onDocumentUpdate M W u t { s with doc := M.applyLocal s.doc u }
    else { s with doc := M.applyLocal s.doc u }
  | .awarenessChange clients =>
    if s.handlersBound then onAwarenessChange M W clients s else s
  | .presenceSync n => presenceSync M W n s
  | .timerFire t saveOk removeOk =>
    if s.debounceDeadline = some t then
      saveDocumentFull M W true saveOk removeOk { s with debounceDeadline := none }
    else s
  | .throttleFlush =>
    if s.throttlePending then commitUpdates M W { s with throttlePending := false } else s
  | .resyncTick =>
    if s.resyncActive then sendUpdate M W { resync := true } s else s
  | .receiveBroadcast v => receiveUpdate M W v s
  | .subscribed loadData trackOk saveOk removeOk =>
    onSubscribed M W loadData trackOk saveOk removeOk s
  | .channelError saveOk removeOk =>
    destroyInternal M W ConnectionStatus.DisconnectedError saveOk removeOk s
  | .destroy saveOk removeOk =>
    destroyInternal M W ConnectionStatus.Disconnected saveOk removeOk s

def runTrace (M : YModel D) (W : AwModel A) (es : List PEvent) (s : PState D A) : PState D A :=
  es.foldl (fun s e => step M W e s) s

structure ProviderInit where
  config : PConfig
  status : ConnectionStatus
  statusEmits : List ConnectionStatus
  subscribeStarted : Bool
deriving DecidableEq

def mkProvider (c : PConfigInput) : Except String ProviderInit :=
  match validateConfig c with
  | .error e => .error e
  | .ok cfg =>
    .ok { config := cfg
          status := ConnectionStatus.Connecting
          statusEmits := [ConnectionStatus.Connecting]
          subscribeStarted := true }

def jsOrString (o : Option String) (d : String) : String :=
  match o with
  | some s => if s = "" then d else s
  | none => d

structure ExistingRoom where
  owner : String
  starter_code : String
  groups : List RoomGroupM
  lock_time : Option String
deriving DecidableEq

def upsertLockTime (existing : Option ExistingRoom) (locked : Bool) (nowIso : String) :
    Option String :=
  if locked then some (jsOrString (existing.bind (fun e => e.lock_time)) nowIso) else none

def countersInv (s : PState D A) : Prop :=
  0 ≤ s.savesUnclaimed ∧ s.savesUnclaimed ≤ s.savesOutstanding

def isEditEv : PEvent → Bool
  | .localEdit _ _ => true
  | _ => false

def evTime : PEvent → Int
  | .localEdit _ t => t
  | .timerFire t _ _ => t
  | _ => 0

def editEvents (burst : List (List Nat × Int)) : List PEvent :=
  burst.map (fun p => .localEdit p.1 p.2)

def timesMonoB : Int → List PEvent → Bool
  | _, [] => true
  | t0, e :: rest => (decide (t0 ≤ evTime e)) && timesMonoB (evTime e) rest

def burstOkB (w : Int) : List (List Nat × Int) → Bool
  | [] => true
  | [_] => true
  | x :: y :: rest => (decide (x.2 ≤ y.2) && decide (y.2 < x.2 + w)) && burstOkB w (y :: rest)

def burstDoc (M : YModel D) (ps : List (List Nat × Int)) (d : D) : D :=
  ps.foldl (fun d p => M.applyLocal d p.1) d

def natModel : YModel Nat := {
  applyLocal := fun d u => d + u.length
  applyUpdate := fun d u => if u = [9] then none else some (d + u.length)
  applyUpdateV2 := fun d u => some (d + u.length)
  encodeStateAsUpdate := fun d => [d]
  encodeStateAsUpdateV2 := fun d => [d, 1]
  encodeStateVector := fun d => [d]
  diffUpdateV2 := fun c _ => c
  mergeUpdates := fun us => us.foldl (fun a b => a ++ b) []
}

def natAw : AwModel Nat := {
  clientID := 7
  applyAwarenessUpdate := fun a u => if u = [9] then none else some (a + u.length)
  encodeAwarenessUpdate := fun a cs => a :: cs
  removeLocal := fun a => a
  removeOthers := fun a => a
}

def testConfig : PConfig := {
  channel := "abc:1"
  save := true
  resync := true
  resyncInterval := 20000
  saveInterval := 2500
  throttleInterval := 0
  log := true
  rw := ReadWriteMode.ReadWrite
  hasSaveCallback := true
  hasLoadCallback := true
}

def testState : PState Nat Nat := {
  config := testConfig
  status := ConnectionStatus.Connected
  doc := 0
  awareness := 0
  hasLocalAwareness := true
  previous := some [0]
  alone := true
  hasChannel := true
  resyncActive := true
  handlersBound := true
  savesOutstanding := 0
  savesUnclaimed := 0
  documentUpdates := []
  awarenessUpdates := []
  debounceDeadline := none
  throttlePending := false
  sent := []
  saveCalls := []
  statusEmits := []
  savingEmits := []
}

def testState2 : PState Nat Nat :=
  { testState with debounceDeadline := some 2500, savesUnclaimed := 1, savesOutstanding := 1 }

def testRoom : RoomRow := {
  code := "abc"
  groups := [{ no := 1, name := "Group 1" }]
  lock_time := some 0
  owner := "host"
}

def testDB : DB := { rooms := [testRoom], updates := [] }

def testRoom2 : RoomRow := {
  code := "abc"
  groups := [{ no := 1, name := "Group 1" }]
  lock_time := none
  owner := "host"
}

def testDB2 : DB := { rooms := [testRoom2], updates := [] }

theorem digitVal_digitChar (d : Nat) (h : d < 10) : digitVal (Nat.digitChar d) = d := by
  interval_cases d <;> decide

theorem isDigit_digitChar (d : Nat) (h : d < 10) : (Nat.digitChar d).isDigit = true := by
  interval_cases d <;> decide

theorem digitsToNat_append (xs : List Char) (c : Char) :
    digitsToNat (xs ++ [c]) = 10 * digitsToNat xs + digitVal c := by
  simp [digitsToNat, List.foldl_append]

theorem digitsToNat_natRepr (n : Nat) : digitsToNat (natRepr n) = n := by
  induction n using Nat.strong_induction_on with
  | _ n ih =>
    rw [natRepr]
    split
    · rename_i h
      simp [digitsToNat]
      exact digitVal_digitChar n h
    · rename_i h
      rw [digitsToNat_append, ih (n / 10) (Nat.div_lt_self (by omega) (by omega)),
        digitVal_digitChar (n % 10) (by omega)]
      omega

theorem splitOnColon_ne_nil (l : List Char) : splitOnColon l ≠ [] := by
  induction l with
  | nil => simp [splitOnColon]
  | cons c rest ih =>
    simp only [splitOnColon]
    split
    · simp
    · split
      · simp
      · simp

theorem splitOnColon_no_colon (l : List Char) (h : ∀ c ∈ l, c ≠ ':') :
    splitOnColon l = [l] := by
  induction l with
  | nil => rfl
  | cons c rest ih =>
    simp only [splitOnColon]
    rw [if_neg (h c (by simp))]
    rw [ih (fun x hx => h x (by simp [hx]))]

theorem splitOnColon_append (l1 l2 : List Char) (h : ∀ c ∈ l1, c ≠ ':') :
    splitOnColon (l1 ++ ':' :: l2) = l1 :: splitOnColon l2 := by
  induction l1 with
  | nil => simp [splitOnColon]
  | cons c rest ih =>
    simp only [List.cons_append, splitOnColon]
    rw [if_neg (h c (by simp)), List.append_eq]
    rw [ih (fun x hx => h x (by simp [hx]))]

theorem natRepr_all_digits (n : Nat) : (natRepr n).all Char.isDigit = true := by
  induction n using Nat.strong_induction_on with
  | _ n ih =>
    rw [natRepr]
    split
    · rename_i h
      simp [List.all_eq_true]
      exact isDigit_digitChar n h
    · rename_i h
      simp only [List.all_append, Bool.and_eq_true]
      constructor
      · exact ih (n / 10) (Nat.div_lt_self (by omega) (by omega))
      · simp [List.all_eq_true]
        exact isDigit_digitChar (n % 10) (by omega)

theorem natRepr_ne_nil (n : Nat) : natRepr n ≠ [] := by
  rw [natRepr]
  split <;> simp

/-- C10: the channel-string encoding round-trips: for every non-empty room
code of alphanumerics and hyphens and every positive group number,
`parseChannelString (channelString code group) = some (code, group)`. -/
theorem claim_c10 (code : String) (group : Nat)
    (h1 : code.data ≠ []) (h2 : code.data.all isCodeChar = true) (_h3 : 0 < group) :
    parseChannelString (channelString code group) = some (code, group) := by
  have hdata : (channelString code group).data = code.data ++ ':' :: natRepr group := by
    simp [channelString, String.data_append]
  have hnc : ∀ c ∈ code.data, c ≠ ':' := by
    intro c hc he
    subst he
    have := (List.all_eq_true.mp h2) _ hc
    exact absurd this (by decide)
  have hnd : ∀ c ∈ natRepr group, c ≠ ':' := by
    intro c hc he
    subst he
    have := (List.all_eq_true.mp (natRepr_all_digits group)) _ hc
    exact absurd this (by decide)
  simp only [parseChannelString, hdata, splitOnColon_append _ _ hnc,
    splitOnColon_no_colon (natRepr group) hnd]
  rw [if_pos ⟨h1, h2, natRepr_ne_nil group, natRepr_all_digits group⟩]
  rw [digitsToNat_natRepr]

/-- C1: for a save whose channel resolves to an existing room containing the
channel's group, `saveDocument` fails with "Room is locked" iff the room is
locked, the caller is not the owner and the save time exceeds the lock
timestamp by more than the 5000 ms grace period; when the room is unlocked,
the caller is the owner, or the save is within the grace period, a decodable
update is stored.  The witness instantiates the lock at 0 with saves at
4999 (non-owner, succeeds), 5001 (non-owner, fails) and 999999 (owner,
succeeds). -/
theorem claim_c1 (decodeOk : List Nat → Bool) (user : Option String) (now : Int)
    (db : DB) (channel : String) (update : List Nat)
    (code : String) (group : Nat) (room : RoomRow)
    (hparse : parseChannelString channel = some (code, group))
    (hroom : findRoom db code = some room)
    (hgroup : room.groups.any (fun g => g.no = group) = true) :
    (saveDocumentSrv decodeOk user now db channel update = .error "Room is locked" ↔
      ∃ lockTs, room.lock_time = some lockTs ∧ user ≠ some room.owner ∧
        now - lockTs > lockSaveGracePeriodMs) ∧
    (decodeOk (update.map (fun n => n % 256)) = true →
      (room.lock_time = none ∨ user = some room.owner ∨
        (∃ lockTs, room.lock_time = some lockTs ∧ now - lockTs ≤ lockSaveGracePeriodMs)) →
      saveDocumentSrv decodeOk user now db channel update =
        .ok { db with updates := db.updates ++ [(channel, update.map (fun n => n % 256))] }) := by
  have hstore : storeUpdate decodeOk db channel update ≠ .error "Room is locked" ∧
      (decodeOk (update.map (fun n => n % 256)) = true →
        storeUpdate decodeOk db channel update =
          .ok { db with updates := db.updates ++ [(channel, update.map (fun n => n % 256))] }) := by
    constructor
    · unfold storeUpdate
      split
      · simp
      · simp
    · intro hdec
      unfold storeUpdate
      rw [if_neg (by simp [hdec])]
  have hres : saveDocumentSrv decodeOk user now db channel update =
      (match room.lock_time with
       | some lockTs =>
         if user ≠ some room.owner ∧ now - lockTs > lockSaveGracePeriodMs then
           .error "Room is locked"
         else storeUpdate decodeOk db channel update
       | none => storeUpdate decodeOk db channel update) := by
    simp only [saveDocumentSrv, hparse, hroom]
    rw [if_neg (by simp [hgroup])]
  constructor
  · rw [hres]
    match hmatch : room.lock_time with
    | none =>
      simp only
      constructor
      · intro h; exact absurd h hstore.1
      · rintro ⟨lockTs, hlt, _⟩; simp [hmatch] at hlt
    | some lockTs =>
      simp only
      constructor
      · intro h
        split at h
        · rename_i hcond
          exact ⟨lockTs, rfl, hcond⟩
        · exact absurd h hstore.1
      · rintro ⟨l2, hl2, hne, hgt⟩
        cases hl2
        rw [if_pos ⟨hne, hgt⟩]
  · intro hdec hauth
    rw [hres]
    match hmatch : room.lock_time with
    | none => exact hstore.2 hdec
    | some lockTs =>
      simp only
      rw [if_neg ?_]
      · exact hstore.2 hdec
      · rcases hauth with h | h | ⟨l2, hl2, hle⟩
        · simp [hmatch] at h
        · simp [h]
        · rw [hmatch] at hl2
          cases hl2
          rintro ⟨_, hgt⟩
          omega

theorem commitUpdates_frame (M : YModel D) (W : AwModel A) (s : PState D A) :
    (commitUpdates M W s).config = s.config ∧
    (commitUpdates M W s).status = s.status ∧
    (commitUpdates M W s).doc = s.doc ∧
    (commitUpdates M W s).awareness = s.awareness ∧
    (commitUpdates M W s).hasLocalAwareness = s.hasLocalAwareness ∧
    (commitUpdates M W s).previous = s.previous ∧
    (commitUpdates M W s).alone = s.alone ∧
    (commitUpdates M W s).hasChannel = s.hasChannel ∧
    (commitUpdates M W s).resyncActive = s.resyncActive ∧
    (commitUpdates M W s).handlersBound = s.handlersBound ∧
    (commitUpdates M W s).savesOutstanding = s.savesOutstanding ∧
    (commitUpdates M W s).savesUnclaimed = s.savesUnclaimed ∧
    (commitUpdates M W s).debounceDeadline = s.debounceDeadline ∧
    (commitUpdates M W s).throttlePending = s.throttlePending ∧
    (commitUpdates M W s).saveCalls = s.saveCalls ∧
    (commitUpdates M W s).statusEmits = s.statusEmits ∧
    (commitUpdates M W s).savingEmits = s.savingEmits := by
  unfold commitUpdates
  repeat' split
  all_goals simp

theorem throttledSend_frame (M : YModel D) (W : AwModel A) (s : PState D A) :
    (throttledSend M W s).config = s.config ∧
    (throttledSend M W s).status = s.status ∧
    (throttledSend M W s).doc = s.doc ∧
    (throttledSend M W s).awareness = s.awareness ∧
    (throttledSend M W s).hasLocalAwareness = s.hasLocalAwareness ∧
    (throttledSend M W s).previous = s.previous ∧
    (throttledSend M W s).alone = s.alone ∧
    (throttledSend M W s).hasChannel = s.hasChannel ∧
    (throttledSend M W s).resyncActive = s.resyncActive ∧
    (throttledSend M W s).handlersBound = s.handlersBound ∧
    (throttledSend M W s).savesOutstanding = s.savesOutstanding ∧
    (throttledSend M W s).savesUnclaimed = s.savesUnclaimed ∧
    (throttledSend M W s).debounceDeadline = s.debounceDeadline ∧
    (throttledSend M W s).saveCalls = s.saveCalls ∧
    (throttledSend M W s).statusEmits = s.statusEmits ∧
    (throttledSend M W s).savingEmits = s.savingEmits := by
  unfold throttledSend
  split
  · exact ⟨(commitUpdates_frame M W s).1, (commitUpdates_frame M W s).2.1,
      (commitUpdates_frame M W s).2.2.1, (commitUpdates_frame M W s).2.2.2.1,
      (commitUpdates_frame M W s).2.2.2.2.1, (commitUpdates_frame M W s).2.2.2.2.2.1,
      (commitUpdates_frame M W s).2.2.2.2.2.2.1, (commitUpdates_frame M W s).2.2.2.2.2.2.2.1,
      (commitUpdates_frame M W s).2.2.2.2.2.2.2.2.1,
      (commitUpdates_frame M W s).2.2.2.2.2.2.2.2.2.1,
      (commitUpdates_frame M W s).2.2.2.2.2.2.2.2.2.2.1,
      (commitUpdates_frame M W s).2.2.2.2.2.2.2.2.2.2.2.1,
      (commitUpdates_frame M W s).2.2.2.2.2.2.2.2.2.2.2.2.1,
      (commitUpdates_frame M W s).2.2.2.2.2.2.2.2.2.2.2.2.2.2.1,
      (commitUpdates_frame M W s).2.2.2.2.2.2.2.2.2.2.2.2.2.2.2.1,
      (commitUpdates_frame M W s).2.2.2.2.2.2.2.2.2.2.2.2.2.2.2.2⟩
  · simp

theorem sendUpdate_frame (M : YModel D) (W : AwModel A) (arg : SendArg) (s : PState D A) :
    (sendUpdate M W arg s).config = s.config ∧
    (sendUpdate M W arg s).status = s.status ∧
    (sendUpdate M W arg s).doc = s.doc ∧
    (sendUpdate M W arg s).awareness = s.awareness ∧
    (sendUpdate M W arg s).hasLocalAwareness = s.hasLocalAwareness ∧
    (sendUpdate M W arg s).previous = s.previous ∧
    (sendUpdate M W arg s).alone = s.alone ∧
    (sendUpdate M W arg s).hasChannel = s.hasChannel ∧
    (sendUpdate M W arg s).resyncActive = s.resyncActive ∧
    (sendUpdate M W arg s).handlersBound = s.handlersBound ∧
    (sendUpdate M W arg s).savesOutstanding = s.savesOutstanding ∧
    (sendUpdate M W arg s).savesUnclaimed = s.savesUnclaimed ∧
    (sendUpdate M W arg s).debounceDeadline = s.debounceDeadline ∧
    (sendUpdate M W arg s).saveCalls = s.saveCalls ∧
    (sendUpdate M W arg s).statusEmits = s.statusEmits ∧
    (sendUpdate M W arg s).savingEmits = s.savingEmits := by
  obtain ⟨d, a, r⟩ := arg
  cases d <;> cases a
  all_goals unfold sendUpdate
  all_goals repeat' split
  all_goals first
    | exact throttledSend_frame M W _
    | simp
  all_goals split
  all_goals first
    | exact throttledSend_frame M W _
    | simp

@[simp] theorem config_ite (c : Prop) [Decidable c] (a b : PState D A) :
    (if c then a else b).config = if c then a.config else b.config := apply_ite _ c a b

@[simp] theorem status_ite (c : Prop) [Decidable c] (a b : PState D A) :
    (if c then a else b).status = if c then a.status else b.status := apply_ite _ c a b

@[simp] theorem doc_ite (c : Prop) [Decidable c] (a b : PState D A) :
    (if c then a else b).doc = if c then a.doc else b.doc := apply_ite _ c a b

@[simp] theorem awareness_ite (c : Prop) [Decidable c] (a b : PState D A) :
    (if c then a else b).awareness = if c then a.awareness else b.awareness := apply_ite _ c a b

@[simp] theorem hasLocalAwareness_ite (c : Prop) [Decidable c] (a b : PState D A) :
    (if c then a else b).hasLocalAwareness = if c then a.hasLocalAwareness else b.hasLocalAwareness := apply_ite _ c a b

@[simp] theorem previous_ite (c : Prop) [Decidable c] (a b : PState D A) :
    (if c then a else b).previous = if c then a.previous else b.previous := apply_ite _ c a b

@[simp] theorem alone_ite (c : Prop) [Decidable c] (a b : PState D A) :
    (if c then a else b).alone = if c then a.alone else b.alone := apply_ite _ c a b

@[simp] theorem hasChannel_ite (c : Prop) [Decidable c] (a b : PState D A) :
    (if c then a else b).hasChannel = if c then a.hasChannel else b.hasChannel := apply_ite _ c a b

@[simp] theorem resyncActive_ite (c : Prop) [Decidable c] (a b : PState D A) :
    (if c then a else b).resyncActive = if c then a.resyncActive else b.resyncActive := apply_ite _ c a b

@[simp] theorem handlersBound_ite (c : Prop) [Decidable c] (a b : PState D A) :
    (if c then a else b).handlersBound = if c then a.handlersBound else b.handlersBound := apply_ite _ c a b

@[simp] theorem savesOutstanding_ite (c : Prop) [Decidable c] (a b : PState D A) :
    (if c then a else b).savesOutstanding = if c then a.savesOutstanding else b.savesOutstanding := apply_ite _ c a b

@[simp] theorem savesUnclaimed_ite (c : Prop) [Decidable c] (a b : PState D A) :
    (if c then a else b).savesUnclaimed = if c then a.savesUnclaimed else b.savesUnclaimed := apply_ite _ c a b

@[simp] theorem documentUpdates_ite (c : Prop) [Decidable c] (a b : PState D A) :
    (if c then a else b).documentUpdates = if c then a.documentUpdates else b.documentUpdates := apply_ite _ c a b

@[simp] theorem awarenessUpdates_ite (c : Prop) [Decidable c] (a b : PState D A) :
    (if c then a else b).awarenessUpdates = if c then a.awarenessUpdates else b.awarenessUpdates := apply_ite _ c a b

@[simp] theorem debounceDeadline_ite (c : Prop) [Decidable c] (a b : PState D A) :
    (if c then a else b).debounceDeadline = if c then a.debounceDeadline else b.debounceDeadline := apply_ite _ c a b

@[simp] theorem throttlePending_ite (c : Prop) [Decidable c] (a b : PState D A) :
    (if c then a else b).throttlePending = if c then a.throttlePending else b.throttlePending := apply_ite _ c a b

@[simp] theorem sent_ite (c : Prop) [Decidable c] (a b : PState D A) :
    (if c then a else b).sent = if c then a.sent else b.sent := apply_ite _ c a b

@[simp] theorem saveCalls_ite (c : Prop) [Decidable c] (a b : PState D A) :
    (if c then a else b).saveCalls = if c then a.saveCalls else b.saveCalls := apply_ite _ c a b

@[simp] theorem statusEmits_ite (c : Prop) [Decidable c] (a b : PState D A) :
    (if c then a else b).statusEmits = if c then a.statusEmits else b.statusEmits := apply_ite _ c a b

@[simp] theorem savingEmits_ite (c : Prop) [Decidable c] (a b : PState D A) :
    (if c then a else b).savingEmits = if c then a.savingEmits else b.savingEmits := apply_ite _ c a b

@[simp] theorem fst_ite (c : Prop) [Decidable c] (a b : PState D A × ConnectionStatus) :
    (if c then a else b).1 = if c then a.1 else b.1 := apply_ite _ c a b

@[simp] theorem snd_ite (c : Prop) [Decidable c] (a b : PState D A × ConnectionStatus) :
    (if c then a else b).2 = if c then a.2 else b.2 := apply_ite _ c a b

theorem requestSave_inv (t : Int) (s : PState D A) (h : countersInv s) :
    countersInv (requestSave t s) := by
  unfold requestSave
  unfold countersInv at h ⊢
  repeat' split
  all_goals simp_all [savesOutstanding_ite, savesUnclaimed_ite]
  all_goals omega

theorem saveDocumentCore_inv (M : YModel D) (rc ok : Bool) (s : PState D A)
    (h : countersInv s) : countersInv (saveDocumentCore M rc ok s).1 := by
  unfold saveDocumentCore
  unfold countersInv at h ⊢
  repeat' split
  all_goals simp only [savesOutstanding_ite, savesUnclaimed_ite]
  all_goals repeat' split
  all_goals simp_all
  all_goals omega

theorem commitUpdates_inv (M : YModel D) (W : AwModel A) (s : PState D A)
    (h : countersInv s) : countersInv (commitUpdates M W s) := by
  have := commitUpdates_frame M W s
  unfold countersInv at h ⊢
  omega

theorem sendUpdate_inv (M : YModel D) (W : AwModel A) (arg : SendArg) (s : PState D A)
    (h : countersInv s) : countersInv (sendUpdate M W arg s) := by
  have := sendUpdate_frame M W arg s
  unfold countersInv at h ⊢
  omega

theorem onUnload_inv (M : YModel D) (W : AwModel A) (s : PState D A)
    (h : countersInv s) : countersInv (onUnload M W s) := by
  unfold onUnload
  split
  · exact sendUpdate_inv M W _ _ h
  · exact h

theorem destroyInternal_inv (M : YModel D) (W : AwModel A) (st : ConnectionStatus)
    (ok rok : Bool) (s : PState D A) (h : countersInv s) :
    countersInv (destroyInternal M W st ok rok s) := by
  unfold destroyInternal
  split
  · exact h
  · have h2 := commitUpdates_inv M W _ (onUnload_inv M W s h)
    have h4 := saveDocumentCore_inv (D := D) (A := A) M false ok
      { commitUpdates M W (onUnload M W s) with
          status := ConnectionStatus.Disconnected, resyncActive := false } h2
    unfold destroyFinish
    unfold countersInv at h4 ⊢
    repeat' split
    all_goals simp_all

theorem saveDocumentFull_inv (M : YModel D) (W : AwModel A) (rc ok rok : Bool)
    (s : PState D A) (h : countersInv s) : countersInv (saveDocumentFull M W rc ok rok s) := by
  unfold saveDocumentFull
  split
  · exact destroyInternal_inv M W _ ok rok _ (saveDocumentCore_inv M rc ok s h)
  · exact saveDocumentCore_inv M rc ok s h

theorem receiveUpdate_inv (M : YModel D) (W : AwModel A) (v : JsonValue) (s : PState D A)
    (h : countersInv s) : countersInv (receiveUpdate M W v s) := by
  unfold receiveUpdate
  unfold countersInv at h ⊢
  repeat' split
  all_goals simp_all

theorem presenceSync_inv (M : YModel D) (W : AwModel A) (n : Nat) (s : PState D A)
    (h : countersInv s) : countersInv (presenceSync M W n s) := by
  unfold presenceSync
  split
  · exact commitUpdates_inv M W _ (sendUpdate_inv M W _ _ h)
  · exact h

theorem loadDocumentP_inv (M : YModel D) (W : AwModel A)
    (ld : Except Unit (Option (List Nat))) (ok rok : Bool) (s : PState D A)
    (h : countersInv s) : countersInv (loadDocumentP M W ld ok rok s).1 := by
  unfold loadDocumentP
  unfold countersInv at h ⊢
  repeat' split
  all_goals simp_all
  all_goals exact destroyInternal_inv M W _ ok rok _ h

theorem onSubscribed_inv (M : YModel D) (W : AwModel A)
    (ld : Except Unit (Option (List Nat))) (tok ok rok : Bool) (s : PState D A)
    (h : countersInv s) : countersInv (onSubscribed M W ld tok ok rok s) := by
  unfold onSubscribed
  split
  · exact loadDocumentP_inv M W ld ok rok s h
  · split
    · exact destroyInternal_inv M W _ ok rok _ (loadDocumentP_inv M W ld ok rok s h)
    · have := loadDocumentP_inv M W ld ok rok s h
      unfold countersInv at this ⊢
      simp_all

theorem step_inv (M : YModel D) (W : AwModel A) (e : PEvent) (s : PState D A)
    (h : countersInv s) : countersInv (step M W e s) := by
  cases e with
  | localEdit u t =>
    simp only [step]
    split
    · have h1 : countersInv { s with doc := M.applyLocal s.doc u } := h
      exact requestSave_inv t _ (sendUpdate_inv M W _ _ h1)
    · exact h
  | awarenessChange clients =>
    simp only [step]
    split
    · exact sendUpdate_inv M W _ _ h
    · exact h
  | presenceSync n => exact presenceSync_inv M W n s h
  | timerFire t ok rok =>
    simp only [step]
    split
    · exact saveDocumentFull_inv M W true ok rok _ h
    · exact h
  | throttleFlush =>
    simp only [step]
    split
    · exact commitUpdates_inv M W _ h
    · exact h
  | resyncTick =>
    simp only [step]
    split
    · exact sendUpdate_inv M W _ _ h
    · exact h
  | receiveBroadcast v => exact receiveUpdate_inv M W v s h
  | subscribed ld tok ok rok => exact onSubscribed_inv M W ld tok ok rok s h
  | channelError ok rok => exact destroyInternal_inv M W _ ok rok s h
  | destroy ok rok => exact destroyInternal_inv M W _ ok rok s h

theorem saving_iff (s : PState D A) : saving s = true ↔ 0 < s.savesOutstanding := by
  unfold saving
  simp

theorem saveDocumentCore_effect (M : YModel D) (rc saveOk : Bool) (s : PState D A)
    (sv : List Nat)
    (hrc : ¬ (rc = true ∧ s.status ≠ ConnectionStatus.Connected))
    (hunc : s.savesUnclaimed ≠ 0)
    (hsave : s.config.save = true) (hcb : s.config.hasSaveCallback = true)
    (hprev : s.previous = some sv)
    (hdiff : M.diffUpdateV2 (M.encodeStateAsUpdateV2 s.doc) sv ≠ [0, 0])
    (hok : saveOk = true) :
    (saveDocumentCore M rc saveOk s).2 = false ∧
    (saveDocumentCore M rc saveOk s).1.saveCalls =
      s.saveCalls ++ [M.diffUpdateV2 (M.encodeStateAsUpdateV2 s.doc) sv] ∧
    (saveDocumentCore M rc saveOk s).1.savesUnclaimed = 0 ∧
    (saveDocumentCore M rc saveOk s).1.savesOutstanding =
      s.savesOutstanding - s.savesUnclaimed ∧
    (saveDocumentCore M rc saveOk s).1.previous = some (M.encodeStateVector s.doc) ∧
    (saveDocumentCore M rc saveOk s).1.status = s.status ∧
    (saveDocumentCore M rc saveOk s).1.doc = s.doc ∧
    (saveDocumentCore M rc saveOk s).1.config = s.config ∧
    (saveDocumentCore M rc saveOk s).1.statusEmits = s.statusEmits ∧
    (saveDocumentCore M rc saveOk s).1.hasChannel = s.hasChannel ∧
    (saveDocumentCore M rc saveOk s).1.handlersBound = s.handlersBound ∧
    (saveDocumentCore M rc saveOk s).1.debounceDeadline = s.debounceDeadline ∧
    (saveDocumentCore M rc saveOk s).1.sent = s.sent ∧
    (saveDocumentCore M rc saveOk s).1.alone = s.alone ∧
    (saveDocumentCore M rc saveOk s).1.hasChannel = s.hasChannel := by
  unfold saveDocumentCore
  rw [if_neg hrc, if_neg (by simp [hunc]), if_neg (by simp [hsave, hcb]), hprev]
  simp only [hok, if_true]
  rw [if_neg (by simpa using hdiff)]
  simp

theorem localEdit_effect (M : YModel D) (W : AwModel A) (u : List Nat) (t : Int)
    (s : PState D A)
    (hC : s.status = ConnectionStatus.Connected)
    (hs : s.config.save = true) (hcb : s.config.hasSaveCallback = true)
    (hb : s.handlersBound = true) :
    (step M W (.localEdit u t) s).status = ConnectionStatus.Connected ∧
    (step M W (.localEdit u t) s).config = s.config ∧
    (step M W (.localEdit u t) s).doc = M.applyLocal s.doc u ∧
    (step M W (.localEdit u t) s).previous = s.previous ∧
    (step M W (.localEdit u t) s).saveCalls = s.saveCalls ∧
    (step M W (.localEdit u t) s).savesUnclaimed = s.savesUnclaimed + 1 ∧
    (step M W (.localEdit u t) s).savesOutstanding = s.savesOutstanding + 1 ∧
    (step M W (.localEdit u t) s).debounceDeadline = some (t + s.config.saveInterval) ∧
    (step M W (.localEdit u t) s).handlersBound = true ∧
    (step M W (.localEdit u t) s).statusEmits = s.statusEmits ∧
    (step M W (.localEdit u t) s).hasChannel = s.hasChannel := by
  simp only [step]
  rw [if_pos hb]
  unfold onDocumentUpdate
  have F := sendUpdate_frame M W { document := some u }
    { s with doc := M.applyLocal s.doc u }
  dsimp only at F
  rw [hC, hb] at F ⊢
  obtain ⟨f1, f2, f3, f4, f5, f6, f7, f8, f9, f10, f11, f12, f13, f14, f15, f16⟩ := F
  unfold requestSave
  rw [if_neg (by simp [f2]), if_neg (by simp [f1, hs, hcb])]
  simp [f1, f2, f3, f4, f5, f6, f7, f8, f9, f10, f11, f12, f13, f14, f15, f16]

theorem timerFire_noop (M : YModel D) (W : AwModel A) (t : Int) (a b : Bool)
    (s : PState D A) (h : s.debounceDeadline ≠ some t) :
    step M W (.timerFire t a b) s = s := by
  simp only [step]
  rw [if_neg h]

theorem timerFire_effect (M : YModel D) (W : AwModel A) (t : Int) (rok : Bool)
    (s : PState D A) (sv : List Nat)
    (hd : s.debounceDeadline = some t)
    (hC : s.status = ConnectionStatus.Connected)
    (hs : s.config.save = true) (hcb : s.config.hasSaveCallback = true)
    (hunc : s.savesUnclaimed ≠ 0)
    (hprev : s.previous = some sv)
    (hdiff : M.diffUpdateV2 (M.encodeStateAsUpdateV2 s.doc) sv ≠ [0, 0]) :
    (step M W (.timerFire t true rok) s).saveCalls =
      s.saveCalls ++ [M.diffUpdateV2 (M.encodeStateAsUpdateV2 s.doc) sv] ∧
    (step M W (.timerFire t true rok) s).debounceDeadline = none ∧
    (step M W (.timerFire t true rok) s).status = ConnectionStatus.Connected ∧
    (step M W (.timerFire t true rok) s).config = s.config ∧
    (step M W (.timerFire t true rok) s).doc = s.doc ∧
    (step M W (.timerFire t true rok) s).previous = some (M.encodeStateVector s.doc) ∧
    (step M W (.timerFire t true rok) s).handlersBound = s.handlersBound ∧
    (step M W (.timerFire t true rok) s).statusEmits = s.statusEmits ∧
    (step M W (.timerFire t true rok) s).savesUnclaimed = 0 := by
  simp only [step]
  rw [if_pos hd]
  unfold saveDocumentFull
  have E := saveDocumentCore_effect M true true { s with debounceDeadline := none } sv
    (by simp [hC]) hunc hs hcb hprev hdiff rfl
  obtain ⟨e0, e1, e2, e3, e4, e5, e6, e7, e8, e9, e10, e11, e12, e13, e14⟩ := E
  rw [if_neg (by simp [e0])]
  exact ⟨e1, e11, by rw [e5]; exact hC, e7, e6, e4, e10, e8, e2⟩

theorem commitUpdates_alone (M : YModel D) (W : AwModel A) (s : PState D A)
    (h : s.alone = true) : commitUpdates M W s = s := by
  unfold commitUpdates
  rw [if_pos h]

theorem throttledSend_sent (M : YModel D) (W : AwModel A) (s : PState D A)
    (h : s.alone = true) : (throttledSend M W s).sent = s.sent := by
  unfold throttledSend
  split
  · rw [commitUpdates_alone M W s h]
  · rfl

theorem sendUpdate_sent (M : YModel D) (W : AwModel A) (arg : SendArg) (s : PState D A)
    (h : s.alone = true) : (sendUpdate M W arg s).sent = s.sent := by
  obtain ⟨d, a, r⟩ := arg
  cases d <;> cases a
  all_goals unfold sendUpdate
  all_goals repeat' split
  all_goals first
    | exact throttledSend_sent M W _ h
    | simp
  all_goals intro _
  all_goals exact throttledSend_sent M W _ h

theorem localEdit_sent (M : YModel D) (W : AwModel A) (u : List Nat) (t : Int)
    (s : PState D A) (h : s.alone = true) :
    (step M W (.localEdit u t) s).sent = s.sent := by
  simp only [step]
  split
  · unfold onDocumentUpdate
    have F := sendUpdate_frame M W { document := some u } { s with doc := M.applyLocal s.doc u }
    have hs2 := sendUpdate_sent M W { document := some u }
      { s with doc := M.applyLocal s.doc u } h
    unfold requestSave
    repeat' split
    all_goals simp_all
  · rfl

theorem awarenessChange_sent (M : YModel D) (W : AwModel A) (clients : List Nat)
    (s : PState D A) (h : s.alone = true) :
    (step M W (.awarenessChange clients) s).sent = s.sent := by
  simp only [step]
  split
  · exact sendUpdate_sent M W _ s h
  · rfl

theorem receiveUpdate_invalid (M : YModel D) (W : AwModel A) (v : JsonValue)
    (s : PState D A) (h : payloadParse v = none) : receiveUpdate M W v s = s := by
  unfold receiveUpdate
  rw [h]

theorem receiveUpdate_status (M : YModel D) (W : AwModel A) (v : JsonValue)
    (s : PState D A) :
    (receiveUpdate M W v s).status = s.status ∧
    (receiveUpdate M W v s).statusEmits = s.statusEmits ∧
    (receiveUpdate M W v s).sent = s.sent ∧
    (receiveUpdate M W v s).saveCalls = s.saveCalls := by
  unfold receiveUpdate
  repeat' split
  all_goals simp

theorem presenceSync_effect (M : YModel D) (W : AwModel A) (n : Nat) (s : PState D A)
    (hn : 2 ≤ n) (hC : s.status = ConnectionStatus.Connected) (hch : s.hasChannel = true)
    (hrs : s.config.resync = true) (hrw : s.config.rw = ReadWriteMode.ReadWrite) :
    (step M W (.presenceSync n) s).sent = s.sent ++
      [{ document := some (M.mergeUpdates (s.documentUpdates ++ [M.encodeStateAsUpdate s.doc]))
         awareness := some (W.encodeAwarenessUpdate s.awareness
           (uniqNat (s.awarenessUpdates ++ [W.clientID]))) }] ∧
    (step M W (.presenceSync n) s).documentUpdates = [] ∧
    (step M W (.presenceSync n) s).awarenessUpdates = [] ∧
    (step M W (.presenceSync n) s).alone = false ∧
    (step M W (.presenceSync n) s).status = ConnectionStatus.Connected := by
  have hn1 : ¬ (n ≤ 1) := by omega
  have halone : decide (n ≤ 1) = false := by simp [hn1]
  simp only [step]
  unfold presenceSync
  rw [if_pos hn1]
  unfold sendUpdate
  rw [if_neg (by simp), if_neg (by simp [hrs])]
  by_cases ht : s.config.throttleInterval = 0
  · unfold throttledSend commitUpdates
    simp [hC, hch, hrw, halone, ht]
  · unfold throttledSend commitUpdates
    simp [hC, hch, hrw, halone, ht]

theorem onUnload_frame (M : YModel D) (W : AwModel A) (s : PState D A) :
    (onUnload M W s).config = s.config ∧
    (onUnload M W s).status = s.status ∧
    (onUnload M W s).doc = s.doc ∧
    (onUnload M W s).previous = s.previous ∧
    (onUnload M W s).alone = s.alone ∧
    (onUnload M W s).hasChannel = s.hasChannel ∧
    (onUnload M W s).savesOutstanding = s.savesOutstanding ∧
    (onUnload M W s).savesUnclaimed = s.savesUnclaimed ∧
    (onUnload M W s).debounceDeadline = s.debounceDeadline ∧
    (onUnload M W s).saveCalls = s.saveCalls ∧
    (onUnload M W s).statusEmits = s.statusEmits ∧
    (onUnload M W s).handlersBound = s.handlersBound := by
  unfold onUnload
  split
  · have F := sendUpdate_frame M W { awareness := some [W.clientID] }
      { s with awareness := W.removeLocal s.awareness, hasLocalAwareness := false }
    obtain ⟨f1, f2, f3, f4, f5, f6, f7, f8, f9, f10, f11, f12, f13, f14, f15, f16⟩ := F
    exact ⟨f1, f2, f3, f6, f7, f8, f11, f12, f13, f14, f15, f10⟩
  · simp

theorem destroyInternal_effect (M : YModel D) (W : AwModel A) (s : PState D A)
    (sv : List Nat)
    (hC : s.status = ConnectionStatus.Connected)
    (hch : s.hasChannel = true)
    (hs : s.config.save = true) (hcb : s.config.hasSaveCallback = true)
    (hunc : s.savesUnclaimed ≠ 0)
    (hprev : s.previous = some sv)
    (hdiff : M.diffUpdateV2 (M.encodeStateAsUpdateV2 s.doc) sv ≠ [0, 0]) :
    (destroyInternal M W ConnectionStatus.Disconnected true true s).saveCalls =
      s.saveCalls ++ [M.diffUpdateV2 (M.encodeStateAsUpdateV2 s.doc) sv] ∧
    (destroyInternal M W ConnectionStatus.Disconnected true true s).status =
      ConnectionStatus.Disconnected ∧
    (destroyInternal M W ConnectionStatus.Disconnected true true s).statusEmits =
      s.statusEmits ++ [ConnectionStatus.Disconnected] ∧
    (destroyInternal M W ConnectionStatus.Disconnected true true s).debounceDeadline =
      s.debounceDeadline ∧
    (destroyInternal M W ConnectionStatus.Disconnected true true s).savesUnclaimed = 0 := by
  have OF := onUnload_frame M W s
  obtain ⟨o1, o2, o3, o4, o5, o6, o7, o8, o9, o10, o11, o12⟩ := OF
  have CF := commitUpdates_frame M W (onUnload M W s)
  obtain ⟨c1, c2, c3, c4, c5, c6, c7, c8, c9, c10, c11, c12, c13, c14, c15, c16, c17⟩ := CF
  have a1 : (commitUpdates M W (onUnload M W s)).config = s.config := by rw [c1, o1]
  have a2 : (commitUpdates M W (onUnload M W s)).doc = s.doc := by rw [c3, o3]
  have a3 : (commitUpdates M W (onUnload M W s)).previous = s.previous := by rw [c6, o4]
  have a4 : (commitUpdates M W (onUnload M W s)).savesUnclaimed = s.savesUnclaimed := by
    rw [c12, o8]
  have a6 : (commitUpdates M W (onUnload M W s)).saveCalls = s.saveCalls := by rw [c15, o10]
  have a7 : (commitUpdates M W (onUnload M W s)).statusEmits = s.statusEmits := by
    rw [c16, o11]
  have a8 : (commitUpdates M W (onUnload M W s)).hasChannel = s.hasChannel := by rw [c8, o6]
  have a9 : (commitUpdates M W (onUnload M W s)).debounceDeadline = s.debounceDeadline := by
    rw [c13, o9]
  have E := saveDocumentCore_effect M false true
    { commitUpdates M W (onUnload M W s) with
        status := ConnectionStatus.Disconnected, resyncActive := false } sv
    (by simp)
    (by simpa [a4] using hunc)
    (by simpa [a1] using hs)
    (by simpa [a1] using hcb)
    (by simpa [a3] using hprev)
    (by simpa [a2] using hdiff)
    rfl
  obtain ⟨e0, e1, e2, e3, e4, e5, e6, e7, e8, e9, e10, e11, e12, e13, e14⟩ := E
  unfold destroyInternal
  rw [if_neg (by simp [hC])]
  unfold destroyFinish
  rw [if_pos (by rw [e9]; simpa [a8] using hch)]
  rw [if_pos rfl]
  simp only [e1, e2, e8, e11]
  simp [a2, a6, a7, a9]

/-- C7: teardown safety.  A local edit while Connected followed immediately
by `destroy()` (before the debounce deadline) and then the leftover timer
firing yields exactly one saveDocument callback invocation whose payload is
that edit's diff, and the final emitted status is Disconnected. -/
theorem claim_c7 (M : YModel D) (W : AwModel A) (u : List Nat) (t : Int)
    (s : PState D A) (sv : List Nat)
    (hC : s.status = ConnectionStatus.Connected)
    (hs : s.config.save = true) (hcb : s.config.hasSaveCallback = true)
    (hb : s.handlersBound = true) (hch : s.hasChannel = true)
    (hunc : 0 ≤ s.savesUnclaimed)
    (hprev : s.previous = some sv)
    (hdiff : M.diffUpdateV2 (M.encodeStateAsUpdateV2 (M.applyLocal s.doc u)) sv ≠ [0, 0]) :
    (runTrace M W [.localEdit u t, .destroy true true,
        .timerFire (t + s.config.saveInterval) true true] s).saveCalls =
      s.saveCalls ++ [M.diffUpdateV2 (M.encodeStateAsUpdateV2 (M.applyLocal s.doc u)) sv] ∧
    (runTrace M W [.localEdit u t, .destroy true true,
        .timerFire (t + s.config.saveInterval) true true] s).status =
      ConnectionStatus.Disconnected ∧
    (runTrace M W [.localEdit u t, .destroy true true,
        .timerFire (t + s.config.saveInterval) true true] s).statusEmits =
      s.statusEmits ++ [ConnectionStatus.Disconnected] := by
  obtain ⟨l1, l2, l3, l4, l5, l6, l7, l8, l9, l10, l11⟩ := localEdit_effect M W u t s hC hs hcb hb
  have DE := destroyInternal_effect M W (step M W (.localEdit u t) s) sv l1
    (by rw [l11]; exact hch)
    (by rw [l2]; exact hs) (by rw [l2]; exact hcb)
    (by rw [l6]; omega)
    (by rw [l4]; exact hprev)
    (by rw [l3]; exact hdiff)
  obtain ⟨d1, d2, d3, d4, d5⟩ := DE
  have hstep2 : step M W (.destroy true true) (step M W (.localEdit u t) s) =
      destroyInternal M W ConnectionStatus.Disconnected true true
        (step M W (.localEdit u t) s) := rfl
  have hrun : runTrace M W [.localEdit u t, .destroy true true,
      .timerFire (t + s.config.saveInterval) true true] s =
    step M W (.timerFire (t + s.config.saveInterval) true true)
      (destroyInternal M W ConnectionStatus.Disconnected true true
        (step M W (.localEdit u t) s)) := rfl
  have fireEq : ∀ (tf : Int) (a b : Bool) (x : PState D A),
      step M W (.timerFire tf a b) x =
        if x.debounceDeadline = some tf then
          saveDocumentFull M W true a b { x with debounceDeadline := none }
        else x := fun _ _ _ _ => rfl
  rw [hrun, fireEq]
  rw [if_pos (by rw [d4, l8])]
  unfold saveDocumentFull saveDocumentCore
  rw [if_pos (And.intro rfl (by simp [d2]))]
  rw [if_neg (by simp)]
  simp [d1, d2, d3, l3, l5, l10]

theorem timesMonoB_le (a : Int) (l : List PEvent) (h : timesMonoB a l = true) :
    ∀ e ∈ l, a ≤ evTime e := by
  induction l generalizing a with
  | nil => intro e he; simp at he
  | cons e0 rest ih =>
    intro e he
    unfold timesMonoB at h
    simp only [Bool.and_eq_true, decide_eq_true_eq] at h
    rcases List.mem_cons.mp he with he0 | hrest
    · subst he0; exact h.1
    · exact le_trans h.1 (ih (evTime e0) h.2 e hrest)

theorem burstOkB_head (w : Int) (x y : List Nat × Int) (rest : List (List Nat × Int))
    (h : burstOkB w (x :: y :: rest) = true) :
    x.2 ≤ y.2 ∧ y.2 < x.2 + w ∧ burstOkB w (y :: rest) = true := by
  unfold burstOkB at h
  simp only [Bool.and_eq_true, decide_eq_true_eq] at h
  exact ⟨h.1.1, h.1.2, h.2⟩

theorem burstOkB_tail (w : Int) (x : List Nat × Int) (rest : List (List Nat × Int))
    (h : burstOkB w (x :: rest) = true) : burstOkB w rest = true := by
  match rest with
  | [] => rfl
  | y :: r => exact (burstOkB_head w x y r h).2.2

theorem fires_run (M : YModel D) (W : AwModel A) (tr : List PEvent) (s : PState D A)
    (hk : ∀ e ∈ tr, ∃ t a b, e = PEvent.timerFire t a b)
    (hd : s.debounceDeadline = none) : runTrace M W tr s = s := by
  induction tr with
  | nil => rfl
  | cons e rest ih =>
    obtain ⟨t, a, b, rfl⟩ := hk e (by simp)
    have hstep : step M W (.timerFire t a b) s = s :=
      timerFire_noop M W t a b s (by rw [hd]; simp)
    show runTrace M W rest (step M W (.timerFire t a b) s) = s
    rw [hstep]
    exact ih (fun e he => hk e (by simp [he]))

theorem burst_run_aux (M : YModel D) (W : AwModel A) (sv : List Nat)
    (baseCalls : List (List Nat)) (wi : Int) :
    ∀ (tr : List PEvent) (pending : List (List Nat × Int)) (sMid : PState D A) (t0 : Int),
    sMid.status = ConnectionStatus.Connected →
    sMid.handlersBound = true →
    sMid.config.save = true →
    sMid.config.hasSaveCallback = true →
    sMid.config.saveInterval = wi →
    0 ≤ sMid.savesUnclaimed →
    sMid.previous = some sv →
    sMid.saveCalls = baseCalls →
    burstOkB wi pending = true →
    ((sMid.debounceDeadline = none ∧ pending ≠ []) ∨
      (∃ dl, sMid.debounceDeadline = some dl ∧ 1 ≤ sMid.savesUnclaimed ∧
        ∀ p, pending.head? = some p → p.2 < dl)) →
    tr.filter isEditEv = editEvents pending →
    (∀ e ∈ tr, (∃ u tt, e = PEvent.localEdit u tt) ∨
      (∃ tt rok, e = PEvent.timerFire tt true rok)) →
    timesMonoB t0 tr = true →
    (runTrace M W tr sMid).debounceDeadline = none →
    M.diffUpdateV2 (M.encodeStateAsUpdateV2 (burstDoc M pending sMid.doc)) sv ≠ [0, 0] →
    (runTrace M W tr sMid).saveCalls =
      baseCalls ++ [M.diffUpdateV2 (M.encodeStateAsUpdateV2 (burstDoc M pending sMid.doc)) sv]
    := by
  intro tr
  induction tr with
  | nil =>
    intro pending sMid t0 hC hb hs hcb hW hunc hprev hsc hburst hdl hfil hkinds hmono hend hdiff
    exfalso
    rcases hdl with ⟨hnone, hpne⟩ | ⟨dl, hsome, _, _⟩
    · apply hpne
      cases pending with
      | nil => rfl
      | cons p pt => simp [editEvents] at hfil
    · have h2 : sMid.debounceDeadline = none := hend
      rw [hsome] at h2
      simp at h2
  | cons e rest ih =>
    intro pending sMid t0 hC hb hs hcb hW hunc hprev hsc hburst hdl hfil hkinds hmono hend hdiff
    have hmono2 : timesMonoB (evTime e) rest = true := by
      unfold timesMonoB at hmono
      simp only [Bool.and_eq_true, decide_eq_true_eq] at hmono
      exact hmono.2
    rcases hkinds _ (List.mem_cons_self _ _) with ⟨u, tt, rfl⟩ | ⟨tt, rok, rfl⟩
    · -- local edit event
      have hfil' : PEvent.localEdit u tt :: rest.filter isEditEv = editEvents pending := by
        simpa [isEditEv] using hfil
      cases pending with
      | nil => simp [editEvents] at hfil'
      | cons p ptail =>
        obtain ⟨pu, p2⟩ := p
        simp only [editEvents, List.map_cons, List.cons.injEq] at hfil'
        obtain ⟨hhead, hrest⟩ := hfil'
        have hu : u = pu := by
          have := congrArg (fun ev => match ev with
            | PEvent.localEdit v _ => v
            | _ => []) hhead
          simpa using this
        have ht : tt = p2 := by
          have := congrArg (fun ev => match ev with
            | PEvent.localEdit _ t1 => t1
            | _ => 0) hhead
          simpa using this
        subst hu
        subst ht
        obtain ⟨l1, l2, l3, l4, l5, l6, l7, l8, l9, l10, l11⟩ :=
          localEdit_effect M W u tt sMid hC hs hcb hb
        have hs1 : (step M W (.localEdit u tt) sMid).config.save = true := by
          rw [l2]; exact hs
        have hcb1 : (step M W (.localEdit u tt) sMid).config.hasSaveCallback = true := by
          rw [l2]; exact hcb
        have hW1 : (step M W (.localEdit u tt) sMid).config.saveInterval = wi := by
          rw [l2]; exact hW
        have hunc1 : 0 ≤ (step M W (.localEdit u tt) sMid).savesUnclaimed := by
          rw [l6]; omega
        have hprev1 : (step M W (.localEdit u tt) sMid).previous = some sv := by
          rw [l4]; exact hprev
        have hsc1 : (step M W (.localEdit u tt) sMid).saveCalls = baseCalls := by
          rw [l5]; exact hsc
        have hburst1 : burstOkB wi ptail = true := burstOkB_tail wi (u, tt) ptail hburst
        have hdl1 : ((step M W (.localEdit u tt) sMid).debounceDeadline = none ∧
              ptail ≠ []) ∨
            (∃ dl, (step M W (.localEdit u tt) sMid).debounceDeadline = some dl ∧
              1 ≤ (step M W (.localEdit u tt) sMid).savesUnclaimed ∧
              ∀ q, ptail.head? = some q → q.2 < dl) := by
          right
          refine ⟨tt + wi, ?_, ?_, ?_⟩
          · rw [l8, hW]
          · rw [l6]; omega
          · intro q hq
            cases ptail with
            | nil => simp at hq
            | cons q0 qt =>
              simp at hq
              subst hq
              exact (burstOkB_head wi (u, tt) q0 qt hburst).2.1
        have hkinds1 : ∀ e2 ∈ rest, (∃ u2 tt2, e2 = PEvent.localEdit u2 tt2) ∨
            (∃ tt2 rok2, e2 = PEvent.timerFire tt2 true rok2) :=
          fun e2 he2 => hkinds e2 (List.mem_cons_of_mem _ he2)
        have hdiff1 : M.diffUpdateV2 (M.encodeStateAsUpdateV2
            (burstDoc M ptail (step M W (.localEdit u tt) sMid).doc)) sv ≠ [0, 0] := by
          rw [l3]; exact hdiff
        have hres := ih ptail (step M W (.localEdit u tt) sMid) (evTime (.localEdit u tt))
          l1 l9 hs1 hcb1 hW1 hunc1 hprev1 hsc1 hburst1 hdl1 hrest hkinds1 hmono2 hend hdiff1
        show (runTrace M W rest (step M W (.localEdit u tt) sMid)).saveCalls = _
        rw [hres, l3]
        rfl
    · -- timer fire event
      rcases hdl with ⟨hnone, hpne⟩ | ⟨dl, hsome, hone, hhead⟩
      · have hstep : step M W (.timerFire tt true rok) sMid = sMid :=
          timerFire_noop M W tt true rok sMid (by rw [hnone]; simp)
        have hrun : runTrace M W (PEvent.timerFire tt true rok :: rest) sMid =
            runTrace M W rest sMid := by
          show runTrace M W rest (step M W (.timerFire tt true rok) sMid) = _
          rw [hstep]
        rw [hrun] at hend ⊢
        have hfil1 : rest.filter isEditEv = editEvents pending := by
          simpa [isEditEv] using hfil
        exact ih pending sMid (evTime (.timerFire tt true rok)) hC hb hs hcb hW hunc hprev
          hsc hburst (Or.inl ⟨hnone, hpne⟩) hfil1
          (fun e2 he2 => hkinds e2 (List.mem_cons_of_mem _ he2)) hmono2 hend hdiff
      · by_cases heq : tt = dl
        · cases pending with
          | cons p ptail =>
            exfalso
            have hfil' : rest.filter isEditEv = editEvents (p :: ptail) := by
              simpa [isEditEv] using hfil
            have hmem : PEvent.localEdit p.1 p.2 ∈ rest := by
              have hm : PEvent.localEdit p.1 p.2 ∈ rest.filter isEditEv := by
                rw [hfil']
                simp [editEvents]
              exact List.mem_of_mem_filter hm
            have hle := timesMonoB_le _ _ hmono2 _ hmem
            have hlt := hhead p rfl
            simp [evTime] at hle
            omega
          | nil =>
            have hfe := timerFire_effect M W tt rok sMid sv
              (by rw [hsome, heq]) hC hs hcb (by omega) hprev hdiff
            obtain ⟨f1, f2, f3, f4, f5, f6, f7, f8, f9⟩ := hfe
            have hfilnil : rest.filter isEditEv = [] := by
              simpa [isEditEv, editEvents] using hfil
            have hkf : ∀ e2 ∈ rest, ∃ t2 a2 b2, e2 = PEvent.timerFire t2 a2 b2 := by
              intro e2 he2
              rcases hkinds e2 (List.mem_cons_of_mem _ he2) with ⟨u2, tt2, rfl⟩ |
                ⟨tt2, rok2, rfl⟩
              · exfalso
                have hm : PEvent.localEdit u2 tt2 ∈ rest.filter isEditEv :=
                  List.mem_filter.mpr ⟨he2, rfl⟩
                rw [hfilnil] at hm
                simp at hm
              · exact ⟨tt2, true, rok2, rfl⟩
            have hrun : runTrace M W rest (step M W (.timerFire tt true rok) sMid) =
                step M W (.timerFire tt true rok) sMid := fires_run M W rest _ hkf f2
            show (runTrace M W rest (step M W (.timerFire tt true rok) sMid)).saveCalls = _
            rw [hrun, f1, hsc]
            rfl
        · have hstep : step M W (.timerFire tt true rok) sMid = sMid :=
            timerFire_noop M W tt true rok sMid (by
              rw [hsome]
              intro hcon
              exact heq (Option.some.inj hcon).symm)
          have hrun : runTrace M W (PEvent.timerFire tt true rok :: rest) sMid =
              runTrace M W rest sMid := by
            show runTrace M W rest (step M W (.timerFire tt true rok) sMid) = _
            rw [hstep]
          rw [hrun] at hend ⊢
          have hfil1 : rest.filter isEditEv = editEvents pending := by
            simpa [isEditEv] using hfil
          exact ih pending sMid (evTime (.timerFire tt true rok)) hC hb hs hcb hW hunc hprev
            hsc hburst (Or.inr ⟨dl, hsome, hone, hhead⟩) hfil1
            (fun e2 he2 => hkinds e2 (List.mem_cons_of_mem _ he2)) hmono2 hend hdiff

/-- C2: `saveDocument` appends exactly one record, leaving rooms untouched,
whenever it returns successfully; a missing room yields "No such room", a
missing group "No such group in room", and an update that does not decode
yields "Malformed update" before anything is stored (every error is raised
before the single terminal insert, so the store is unchanged on error). -/
theorem claim_c2 (decodeOk : List Nat → Bool) (user : Option String) (now : Int)
    (db : DB) (channel : String) (update : List Nat) :
    (∀ db2, saveDocumentSrv decodeOk user now db channel update = .ok db2 →
      db2.updates = db.updates ++ [(channel, update.map (fun n => n % 256))] ∧
      db2.rooms = db.rooms) ∧
    (∀ code group, parseChannelString channel = some (code, group) →
      findRoom db code = none →
      saveDocumentSrv decodeOk user now db channel update = .error "No such room") ∧
    (∀ code group room, parseChannelString channel = some (code, group) →
      findRoom db code = some room →
      room.groups.any (fun g => g.no = group) = false →
      saveDocumentSrv decodeOk user now db channel update =
        .error "No such group in room") ∧
    (∀ code group room, parseChannelString channel = some (code, group) →
      findRoom db code = some room →
      room.groups.any (fun g => g.no = group) = true →
      (∀ lockTs, room.lock_time = some lockTs →
        ¬ (user ≠ some room.owner ∧ now - lockTs > lockSaveGracePeriodMs)) →
      decodeOk (update.map (fun n => n % 256)) = false →
      saveDocumentSrv decodeOk user now db channel update = .error "Malformed update") := by
  refine ⟨?_, ?_, ?_, ?_⟩
  · intro db2 h
    unfold saveDocumentSrv storeUpdate at h
    repeat' split at h
    all_goals try (cases h)
    all_goals try (exact ⟨rfl, rfl⟩)
  · intro code group hparse hroom
    simp only [saveDocumentSrv, hparse, hroom]
  · intro code group room hparse hroom hgroup
    simp only [saveDocumentSrv, hparse, hroom]
    rw [if_pos (by simp [hgroup])]
  · intro code group room hparse hroom hgroup hauth hdec
    simp only [saveDocumentSrv, hparse, hroom]
    rw [if_neg (by simp [hgroup])]
    have hst : storeUpdate decodeOk db channel update = .error "Malformed update" := by
      unfold storeUpdate
      rw [if_pos (by simp [hdec])]
    match hmatch : room.lock_time with
    | none => exact hst
    | some lockTs =>
      simp only
      rw [if_neg (hauth lockTs hmatch)]
      exact hst

/-- C3: save coalescing.  For any burst of edits whose consecutive gaps are
smaller than the `saveInterval` debounce window, and any complete event
trace consisting of exactly those edits (in order) plus debounce-timer
firings at arbitrary times, exactly one saveDocument callback invocation
results and its payload is the diff between the document state after the
burst and the state vector recorded at the last completed save or load
(`previous`). -/
theorem claim_c3 (M : YModel D) (W : AwModel A) (s : PState D A)
    (burst : List (List Nat × Int)) (tr : List PEvent) (sv : List Nat) (t0 : Int)
    (hne : burst ≠ [])
    (hburst : burstOkB s.config.saveInterval burst = true)
    (hC : s.status = ConnectionStatus.Connected)
    (hs : s.config.save = true) (hcb : s.config.hasSaveCallback = true)
    (hb : s.handlersBound = true)
    (hd0 : s.debounceDeadline = none)
    (hunc0 : 0 ≤ s.savesUnclaimed)
    (hprev : s.previous = some sv)
    (hfil : tr.filter isEditEv = editEvents burst)
    (hkinds : ∀ e ∈ tr, (∃ u tt, e = PEvent.localEdit u tt) ∨
      (∃ tt rok, e = PEvent.timerFire tt true rok))
    (hmono : timesMonoB t0 tr = true)
    (hend : (runTrace M W tr s).debounceDeadline = none)
    (hdiff : M.diffUpdateV2 (M.encodeStateAsUpdateV2 (burstDoc M burst s.doc)) sv ≠ [0, 0]) :
    (runTrace M W tr s).saveCalls = s.saveCalls ++
      [M.diffUpdateV2 (M.encodeStateAsUpdateV2 (burstDoc M burst s.doc)) sv] := by
  exact burst_run_aux M W sv s.saveCalls s.config.saveInterval tr burst s t0
    hC hb hs hcb rfl hunc0 hprev rfl hburst (Or.inl ⟨hd0, hne⟩) hfil hkinds hmono hend hdiff

/-- C4: presence-aware traffic suppression.  While alone, `commitUpdates`
sends nothing, local edits and awareness changes produce no broadcast, yet
the debounced save still hands the diff to the save callback; a
presence-sync event showing at least two members enqueues a full-state
resync update and immediately flushes all buffered document and awareness
updates in one combined broadcast. -/
theorem claim_c4 (M : YModel D) (W : AwModel A) :
    (∀ s : PState D A, s.alone = true → commitUpdates M W s = s) ∧
    (∀ (s : PState D A) (u : List Nat) (t : Int), s.alone = true →
      (step M W (.localEdit u t) s).sent = s.sent) ∧
    (∀ (s : PState D A) (clients : List Nat), s.alone = true →
      (step M W (.awarenessChange clients) s).sent = s.sent) ∧
    (∀ (s : PState D A) (t : Int) (rok : Bool) (sv : List Nat),
      s.alone = true → s.debounceDeadline = some t →
      s.status = ConnectionStatus.Connected →
      s.config.save = true → s.config.hasSaveCallback = true →
      s.savesUnclaimed ≠ 0 → s.previous = some sv →
      M.diffUpdateV2 (M.encodeStateAsUpdateV2 s.doc) sv ≠ [0, 0] →
      (step M W (.timerFire t true rok) s).saveCalls =
        s.saveCalls ++ [M.diffUpdateV2 (M.encodeStateAsUpdateV2 s.doc) sv]) ∧
    (∀ (s : PState D A) (n : Nat), 2 ≤ n →
      s.status = ConnectionStatus.Connected → s.hasChannel = true →
      s.config.resync = true → s.config.rw = ReadWriteMode.ReadWrite →
      (step M W (.presenceSync n) s).sent = s.sent ++
        [{ document := some (M.mergeUpdates
             (s.documentUpdates ++ [M.encodeStateAsUpdate s.doc]))
           awareness := some (W.encodeAwarenessUpdate s.awareness
             (uniqNat (s.awarenessUpdates ++ [W.clientID]))) }] ∧
      (step M W (.presenceSync n) s).documentUpdates = [] ∧
      (step M W (.presenceSync n) s).awarenessUpdates = [] ∧
      (step M W (.presenceSync n) s).alone = false) := by
  refine ⟨?_, ?_, ?_, ?_, ?_⟩
  · exact fun s h => commitUpdates_alone M W s h
  · exact fun s u t h => localEdit_sent M W u t s h
  · exact fun s clients h => awarenessChange_sent M W clients s h
  · intro s t rok sv _ hd hC hs hcb hunc hprev hdiff
    exact (timerFire_effect M W t rok s sv hd hC hs hcb hunc hprev hdiff).1
  · intro s n hn hC hch hrs hrw
    obtain ⟨p1, p2, p3, p4, p5⟩ := presenceSync_effect M W n s hn hC hch hrs hrw
    exact ⟨p1, p2, p3, p4⟩

/-- C5: `requestSave`, the save path, `destroyInternal` and every event
handler preserve the counter invariant
`savesOutstanding >= savesUnclaimed >= 0`, and the public `saving`
observable is true iff `savesOutstanding > 0`. -/
theorem claim_c5 (M : YModel D) (W : AwModel A) :
    (∀ (t : Int) (s : PState D A), countersInv s → countersInv (requestSave t s)) ∧
    (∀ (rc ok : Bool) (s : PState D A), countersInv s →
      countersInv (saveDocumentCore M rc ok s).1) ∧
    (∀ (rc ok rok : Bool) (s : PState D A), countersInv s →
      countersInv (saveDocumentFull M W rc ok rok s)) ∧
    (∀ (st : ConnectionStatus) (ok rok : Bool) (s : PState D A), countersInv s →
      countersInv (destroyInternal M W st ok rok s)) ∧
    (∀ (e : PEvent) (s : PState D A), countersInv s → countersInv (step M W e s)) ∧
    (∀ s : PState D A, saving s = true ↔ 0 < s.savesOutstanding) := by
  exact ⟨fun t s h => requestSave_inv t s h,
    fun rc ok s h => saveDocumentCore_inv M rc ok s h,
    fun rc ok rok s h => saveDocumentFull_inv M W rc ok rok s h,
    fun st ok rok s h => destroyInternal_inv M W st ok rok s h,
    fun e s h => step_inv M W e s h,
    fun s => saving_iff s⟩

/-- C6: `receiveUpdate` leaves the state completely unchanged on any payload
rejected by the `PayloadSchema` validation, and never changes the
connection status, emitted statuses, outgoing broadcasts or save calls on
any payload, including schema-valid payloads whose bytes fail to apply
(the exception is caught). -/
theorem claim_c6 (M : YModel D) (W : AwModel A) (v : JsonValue) (s : PState D A) :
    (payloadParse v = none → receiveUpdate M W v s = s) ∧
    (receiveUpdate M W v s).status = s.status ∧
    (receiveUpdate M W v s).statusEmits = s.statusEmits ∧
    (receiveUpdate M W v s).sent = s.sent ∧
    (receiveUpdate M W v s).saveCalls = s.saveCalls := by
  obtain ⟨r1, r2, r3, r4⟩ := receiveUpdate_status M W v s
  exact ⟨fun h => receiveUpdate_invalid M W v s h, r1, r2, r3, r4⟩

/-- C8 counterexample: a configuration with `throttleInterval = -5 < 0` (all
other intervals at their valid defaults) does NOT make construction fail:
`validateConfig` only checks `resyncInterval` and `saveInterval`, so the
claim that construction throws for every `throttleInterval < 0` is false. -/
theorem claim_c8_counterexample :
    ((-5 : Int) < 0) ∧
    (mkProvider {
      channel := "room:1"
      hasSaveCallback := true
      hasLoadCallback := true
      save := none
      resync := none
      resyncInterval := none
      saveInterval := none
      throttleInterval := some (-5)
      log := none
      rw := none }).isOk = true := by
  exact ⟨by decide, by rfl⟩

/-- C8 (amended): provider construction fails fast iff the resolved
`resyncInterval` or `saveInterval` is non-positive; the error is exactly
`validateConfig`'s, raised before any channel subscription is attempted
(`subscribeStarted` only on success); `throttleInterval` is not
validated. -/
theorem claim_c8 (c : PConfigInput) :
    ((∃ e, mkProvider c = .error e) ↔
      (c.resyncInterval.getD 20000 ≤ 0 ∨ c.saveInterval.getD 2500 ≤ 0)) ∧
    (∀ e, mkProvider c = .error e → validateConfig c = .error e) ∧
    (∀ p, mkProvider c = .ok p → p.subscribeStarted = true ∧
      p.status = ConnectionStatus.Connecting ∧
      p.statusEmits = [ConnectionStatus.Connecting]) := by
  refine ⟨?_, ?_, ?_⟩
  · constructor
    · rintro ⟨e, he⟩
      unfold mkProvider validateConfig at he
      by_cases h1 : (resolveConfig c).resyncInterval ≤ 0
      · exact Or.inl h1
      · rw [if_neg h1] at he
        by_cases h2 : (resolveConfig c).saveInterval ≤ 0
        · exact Or.inr h2
        · rw [if_neg h2] at he
          simp at he
    · intro h
      unfold mkProvider validateConfig
      rcases h with h | h
      · rw [if_pos (show (resolveConfig c).resyncInterval ≤ 0 from h)]
        exact ⟨"resyncInterval must be positive", rfl⟩
      · by_cases h1 : (resolveConfig c).resyncInterval ≤ 0
        · rw [if_pos h1]
          exact ⟨"resyncInterval must be positive", rfl⟩
        · rw [if_neg h1, if_pos (show (resolveConfig c).saveInterval ≤ 0 from h)]
          exact ⟨"saveInterval must be positive", rfl⟩
  · intro e he
    unfold mkProvider at he
    match hv : validateConfig c with
    | .error e2 =>
      rw [hv] at he
      simp at he
      rw [he]
    | .ok cfg =>
      rw [hv] at he
      simp at he
  · intro p hp
    unfold mkProvider at hp
    match hv : validateConfig c with
    | .error e2 =>
      rw [hv] at hp
      simp at hp
    | .ok cfg =>
      rw [hv] at hp
      simp at hp
      rw [← hp]
      exact ⟨rfl, rfl, rfl⟩

/-- C9: the `lock_time` written by `upsertRoom`: when the new state is
locked and the existing row already has a (non-empty) lock timestamp it is
kept unchanged; locking a previously unlocked or non-existent room stamps
the current time; unlocking always resets it to null. -/
theorem claim_c9 :
    (∀ (ex : ExistingRoom) (t now : String), ex.lock_time = some t → t ≠ "" →
      upsertLockTime (some ex) true now = some t) ∧
    (∀ (ex : ExistingRoom) (now : String), ex.lock_time = none →
      upsertLockTime (some ex) true now = some now) ∧
    (∀ now : String, upsertLockTime none true now = some now) ∧
    (∀ (existing : Option ExistingRoom) (now : String),
      upsertLockTime existing false now = none) := by
  refine ⟨?_, ?_, ?_, ?_⟩
  · intro ex t now hlt hne
    unfold upsertLockTime jsOrString
    rw [if_pos rfl]
    simp [hlt, hne]
  · intro ex now hlt
    unfold upsertLockTime jsOrString
    rw [if_pos rfl]
    simp [hlt]
  · intro now
    rfl
  · intro existing now
    rfl

theorem claim_c1_witness :
    (saveDocumentSrv (fun _ => true) (some "guest") 5001 testDB "abc:1" [1, 2] =
      .error "Room is locked") ∧
    (saveDocumentSrv (fun _ => true) (some "guest") 4999 testDB "abc:1" [1, 2] =
      .ok { testDB with updates := testDB.updates ++
        [("abc:1", List.map (fun n => n % 256) [1, 2])] }) ∧
    (saveDocumentSrv (fun _ => true) (some "host") 999999 testDB "abc:1" [1, 2] =
      .ok { testDB with updates := testDB.updates ++
        [("abc:1", List.map (fun n => n % 256) [1, 2])] }) := by
  refine ⟨?_, ?_, ?_⟩
  · exact (claim_c1 (fun _ => true) (some "guest") 5001 testDB "abc:1" [1, 2] "abc" 1
      testRoom (by decide) (by decide) (by decide)).1.mpr ⟨0, rfl, by decide, by decide⟩
  · exact (claim_c1 (fun _ => true) (some "guest") 4999 testDB "abc:1" [1, 2] "abc" 1
      testRoom (by decide) (by decide) (by decide)).2 rfl
      (Or.inr (Or.inr ⟨0, rfl, by decide⟩))
  · exact (claim_c1 (fun _ => true) (some "host") 999999 testDB "abc:1" [1, 2] "abc" 1
      testRoom (by decide) (by decide) (by decide)).2 rfl (Or.inr (Or.inl rfl))

theorem claim_c2_witness :
    (({ rooms := [testRoom2], updates := [("abc:1", [1, 2])] } : DB).updates =
       testDB2.updates ++ [("abc:1", List.map (fun n => n % 256) [1, 2])] ∧
     ({ rooms := [testRoom2], updates := [("abc:1", [1, 2])] } : DB).rooms =
       testDB2.rooms) ∧
    (saveDocumentSrv (fun _ => true) none 0 testDB2 "zzz:1" [1, 2] =
      .error "No such room") ∧
    (saveDocumentSrv (fun _ => true) none 0 testDB2 "abc:9" [1, 2] =
      .error "No such group in room") ∧
    (saveDocumentSrv (fun _ => false) none 0 testDB2 "abc:1" [1, 2] =
      .error "Malformed update") := by
  refine ⟨?_, ?_, ?_, ?_⟩
  · exact (claim_c2 (fun _ => true) none 0 testDB2 "abc:1" [1, 2]).1
      { rooms := [testRoom2], updates := [("abc:1", [1, 2])] } (by rfl)
  · exact (claim_c2 (fun _ => true) none 0 testDB2 "zzz:1" [1, 2]).2.1 "zzz" 1
      (by decide) (by decide)
  · exact (claim_c2 (fun _ => true) none 0 testDB2 "abc:9" [1, 2]).2.2.1 "abc" 9
      testRoom2 (by decide) (by decide) (by decide)
  · exact (claim_c2 (fun _ => false) none 0 testDB2 "abc:1" [1, 2]).2.2.2 "abc" 1
      testRoom2 (by decide) (by decide) (by decide)
      (fun lockTs h => by simp [testRoom2] at h) (by decide)

theorem claim_c3_witness :
    ((runTrace natModel natAw
      [.localEdit [1] 0, .localEdit [2] 1, .timerFire 2501 true true]
      testState).saveCalls = testState.saveCalls ++
        [natModel.diffUpdateV2 (natModel.encodeStateAsUpdateV2
          (burstDoc natModel [([1], 0), ([2], 1)] testState.doc)) [0]]) := by
  exact claim_c3 natModel natAw testState [([1], 0), ([2], 1)]
    [.localEdit [1] 0, .localEdit [2] 1, .timerFire 2501 true true] [0] 0
    (by decide) (by rfl) rfl rfl rfl rfl rfl (by decide) rfl
    (by rfl)
    (by
      intro e he
      simp at he
      rcases he with rfl | rfl | rfl
      · exact Or.inl ⟨[1], 0, rfl⟩
      · exact Or.inl ⟨[2], 1, rfl⟩
      · exact Or.inr ⟨2501, true, rfl⟩)
    (by rfl) (by rfl) (by decide)

theorem claim_c4_witness :
    (commitUpdates natModel natAw testState = testState) ∧
    ((step natModel natAw (.localEdit [1] 0) testState).sent = testState.sent) ∧
    ((step natModel natAw (.awarenessChange [3]) testState).sent = testState.sent) ∧
    ((step natModel natAw (.timerFire 2500 true true) testState2).saveCalls =
      testState2.saveCalls ++ [natModel.diffUpdateV2
        (natModel.encodeStateAsUpdateV2 testState2.doc) [0]]) ∧
    ((step natModel natAw (.presenceSync 2) testState).sent = testState.sent ++
      [{ document := some (natModel.mergeUpdates
           (testState.documentUpdates ++ [natModel.encodeStateAsUpdate testState.doc]))
         awareness := some (natAw.encodeAwarenessUpdate testState.awareness
           (uniqNat (testState.awarenessUpdates ++ [natAw.clientID]))) }]) := by
  obtain ⟨h1, h2, h3, h4, h5⟩ := claim_c4 natModel natAw
  refine ⟨h1 testState rfl, h2 testState [1] 0 rfl, h3 testState [3] rfl, ?_, ?_⟩
  · exact h4 testState2 2500 true [0] rfl rfl rfl rfl rfl (by decide) rfl (by decide)
  · exact (h5 testState 2 (by decide) rfl rfl rfl rfl).1

theorem claim_c5_witness :
    countersInv (requestSave 0 testState) ∧
    countersInv (saveDocumentCore natModel true true testState2).1 ∧
    countersInv (step natModel natAw (.destroy true true) testState2) ∧
    (saving testState2 = true ↔ 0 < testState2.savesOutstanding) := by
  obtain ⟨h1, h2, h3, h4, h5, h6⟩ := claim_c5 natModel natAw
  exact ⟨h1 0 testState ⟨by decide, by decide⟩,
    h2 true true testState2 ⟨by decide, by decide⟩,
    h5 (.destroy true true) testState2 ⟨by decide, by decide⟩,
    h6 testState2⟩

theorem claim_c6_witness :
    (payloadParse (JsonValue.str "junk") = none) ∧
    (receiveUpdate natModel natAw (JsonValue.str "junk") testState = testState) ∧
    ((receiveUpdate natModel natAw
      (JsonValue.obj [("document", JsonValue.arr [JsonValue.num 9])]) testState).status =
      testState.status) := by
  refine ⟨by decide, ?_, ?_⟩
  · exact (claim_c6 natModel natAw (JsonValue.str "junk") testState).1 (by decide)
  · exact (claim_c6 natModel natAw
      (JsonValue.obj [("document", JsonValue.arr [JsonValue.num 9])]) testState).2.1

theorem claim_c7_witness :
    ((runTrace natModel natAw [.localEdit [1] 0, .destroy true true,
        .timerFire (0 + testState.config.saveInterval) true true] testState).saveCalls =
      testState.saveCalls ++ [natModel.diffUpdateV2 (natModel.encodeStateAsUpdateV2
        (natModel.applyLocal testState.doc [1])) [0]]) ∧
    ((runTrace natModel natAw [.localEdit [1] 0, .destroy true true,
        .timerFire (0 + testState.config.saveInterval) true true] testState).status =
      ConnectionStatus.Disconnected) ∧
    ((runTrace natModel natAw [.localEdit [1] 0, .destroy true true,
        .timerFire (0 + testState.config.saveInterval) true true] testState).statusEmits =
      testState.statusEmits ++ [ConnectionStatus.Disconnected]) := by
  exact claim_c7 natModel natAw [1] 0 testState [0] rfl rfl rfl rfl rfl (by decide) rfl
    (by decide)

theorem claim_c8_witness :
    (∃ e, mkProvider {
      channel := "abc:1"
      hasSaveCallback := true
      hasLoadCallback := true
      save := none
      resync := none
      resyncInterval := none
      saveInterval := some 0
      throttleInterval := none
      log := none
      rw := none } = .error e) := by
  exact (claim_c8 {
    channel := "abc:1"
    hasSaveCallback := true
    hasLoadCallback := true
    save := none
    resync := none
    resyncInterval := none
    saveInterval := some 0
    throttleInterval := none
    log := none
    rw := none }).1.mpr (Or.inr (by decide))

theorem claim_c9_witness :
    (upsertLockTime (some { owner := "host", starter_code := "", groups := [], lock_time := some "T1" }) true "NOW" = some "T1") ∧
    (upsertLockTime (some { owner := "host", starter_code := "", groups := [], lock_time := none }) true "NOW" = some "NOW") ∧
    (upsertLockTime none true "NOW" = some "NOW") ∧
    (upsertLockTime (some { owner := "host", starter_code := "", groups := [], lock_time := some "T1" }) false "NOW" = none) := by
  obtain ⟨h1, h2, h3, h4⟩ := claim_c9
  exact ⟨h1 _ "T1" "NOW" rfl (by decide), h2 _ "NOW" rfl, h3 "NOW", h4 _ "NOW"⟩

theorem claim_c10_witness :
    parseChannelString (channelString "abc" 12) = some ("abc", 12) := by
  exact claim_c10 "abc" 12 (by decide) (by decide) (by decide)
